import Mathlib

/-!
Verification of the GRAFIMO utility module (`src/grafimo/utils.py`).

The Python source is shallowly embedded below.  Numeric values of type
`np.double` are modelled as exact rationals (`ℚ`) where the code only
compares and adds/subtracts, and as real numbers (`ℝ`) where a logarithm
is computed; `-inf`/`NaN` results of numpy operations are modelled by a
dedicated `NpDouble` type.  Python `dict` lookup (which raises `KeyError`
on a missing key) is modelled by `Option`, and a pandas `DataFrame` is
modelled as a list of named columns together with an index length, so
that the defensive `assert` statements of `list_data` are observable.
-/

namespace Grafimo

/-- `DNA_ALPHABET = ['A', 'C', 'G', 'T']` from utils.py line 23. -/
def DNA_ALPHABET : List Char := ['A', 'C', 'G', 'T']

/-- `REV_COMPL = {'A': 'T', 'C': 'G', 'G': 'C', 'T': 'A'}` from utils.py
line 24.  Python dict subscription raises `KeyError` on a missing key
(the spec names this failure `InvalidSymbolError`); this is modelled by
returning `none`. -/
def REV_COMPL (b : Char) : Option Char :=
  if b = 'A' then some 'T'
  else if b = 'C' then some 'G'
  else if b = 'G' then some 'C'
  else if b = 'T' then some 'A'
  else none

/-- `PSEUDObg = np.double(0.0000005)` from utils.py line 25, as an exact
rational. -/
def PSEUDObg : ℚ := 5 / 10000000

/-- `LOG_FACTOR = 1.44269504` from utils.py line 26, as an exact real. -/
def LOG_FACTOR : ℝ := 1.44269504

/-- `almost_equal(value1, value2, slope)` from utils.py lines 182-201:
`if (value1 - slope) > value2 or (value1 + slope) < value2: return False
else: return True`, with `np.double` modelled as exact rationals. -/
def almost_equal (value1 value2 slope : ℚ) : Bool :=
  if value1 - slope > value2 ∨ value1 + slope < value2 then false
  else true

/-- Modelled from the spec: `corrected_probability` is not part of
`src/grafimo/utils.py` (only the pseudocount constant `PSEUDObg` is);
§4.1 specifies it as returning `p` if `p > 0`, else the fixed
pseudocount constant. -/
def corrected_probability (p : ℚ) : ℚ :=
  if p > 0 then p else PSEUDObg

/-- A numpy double-precision scalar: a finite value (idealised as an
exact real), `-inf`, `+inf`, or `NaN`. -/
inductive NpDouble where
  | val (x : ℝ)
  | negInf
  | posInf
  | nan

open Classical in
/-- `np.log` on a scalar, with default numpy error state: natural
logarithm of a positive finite value; at `0` numpy emits a
RuntimeWarning and yields `-inf`, and on a negative value it yields
`NaN` — no exception is raised.  `log(-inf) = NaN`, `log(+inf) = +inf`,
`log(NaN) = NaN`. -/
noncomputable def np_log : NpDouble → NpDouble
  | .val x => if 0 < x then .val (Real.log x) else if x = 0 then .negInf else .nan
  | .negInf => .nan
  | .posInf => .posInf
  | .nan => .nan

/-- Multiplication of a numpy scalar by a positive finite constant
(only used with `c = LOG_FACTOR > 0`): finite values multiply, the
infinities keep their sign, `NaN` propagates. -/
noncomputable def np_mul_pos (v : NpDouble) (c : ℝ) : NpDouble :=
  match v with
  | .val x => .val (x * c)
  | .negInf => .negInf
  | .posInf => .posInf
  | .nan => .nan

/-- `lg2(value)` from utils.py lines 204-215:
`return (np.log(value) * LOG_FACTOR)`. -/
noncomputable def lg2 (value : NpDouble) : NpDouble :=
  np_mul_pos (np_log value) LOG_FACTOR

/-- C5: `almost_equal` returns true iff the second value lies in the
closed symmetric interval `[value1 - slope, value1 + slope]`; in
particular `almost_equal 10 10 0` is true, `almost_equal 10 10.3 0.2`
is false, and `almost_equal 10 9.9 0.2` is true. -/
theorem almost_equal_iff_closed_interval :
    (∀ a b t : ℚ, almost_equal a b t = true ↔ a - t ≤ b ∧ b ≤ a + t) ∧
    almost_equal 10 10 0 = true ∧
    almost_equal 10 (103 / 10) (2 / 10) = false ∧
    almost_equal 10 (99 / 10) (2 / 10) = true := by
  refine ⟨fun a b t => ?_, by norm_num [almost_equal], by norm_num [almost_equal],
    by norm_num [almost_equal]⟩
  unfold almost_equal
  constructor
  · intro h
    split at h
    · exact absurd h (by simp)
    · rename_i hcond
      push_neg at hcond
      exact hcond
  · intro h
    rw [if_neg]
    push_neg
    exact h

/-- C7: `corrected_probability` returns `p` unchanged for every
`p ∈ (0, 1]`, returns the fixed pseudocount `5 × 10⁻⁷` at `p = 0`, and
its result is always positive. -/
theorem corrected_probability_spec :
    (∀ p : ℚ, 0 < p → corrected_probability p = p) ∧
    corrected_probability 0 = PSEUDObg ∧
    PSEUDObg = 5 / 10 ^ 7 ∧
    (∀ p : ℚ, 0 < corrected_probability p) := by
  refine ⟨fun p hp => ?_, by simp [corrected_probability], by norm_num [PSEUDObg], fun p => ?_⟩
  · simp [corrected_probability, hp]
  · unfold corrected_probability
    split
    · assumption
    · norm_num [PSEUDObg]

/-- Witness for C7 at `p = 1/2`. -/
theorem corrected_probability_spec_witness :
    corrected_probability (1 / 2) = 1 / 2 ∧ 0 < corrected_probability 0 :=
  ⟨corrected_probability_spec.1 (1 / 2) (by norm_num),
   corrected_probability_spec.2.2.2 0⟩

/-- C8: applying the complement mapping twice is the identity on each of
the four canonical nucleotides. -/
theorem rev_compl_involutive (b : Char) (hb : b ∈ DNA_ALPHABET) :
    (REV_COMPL b).bind REV_COMPL = some b := by
  fin_cases hb <;> decide

/-- Witness for C8 at `b = 'A'`. -/
theorem rev_compl_involutive_witness :
    (REV_COMPL 'A').bind REV_COMPL = some 'A' :=
  rev_compl_involutive 'A' (by decide)

/-- C9: the complement mapping fails (dict lookup misses, modelled as
`none`; the spec names this `InvalidSymbolError`) on every symbol
outside `{A, C, G, T}`; no symbol is passed through. -/
theorem rev_compl_rejects_invalid (b : Char) (hb : b ∉ DNA_ALPHABET) :
    REV_COMPL b = none := by
  unfold REV_COMPL
  simp only [DNA_ALPHABET, List.mem_cons, List.not_mem_nil] at hb
  push_neg at hb
  obtain ⟨hA, hC, hG, hT, _⟩ := hb
  simp [hA, hC, hG, hT]

/-- Witness for C9 at `b = 'N'`. -/
theorem rev_compl_rejects_invalid_witness : REV_COMPL 'N' = none :=
  rev_compl_rejects_invalid 'N' (by decide)

/-- C6 counterexample: `lg2` does not fail with a `DomainError` on a
non-positive argument; it returns an ordinary numpy value, `-inf` at
`0` and `NaN` at `-1`, because `np.log` raises no exception. -/
theorem lg2_nonpositive_counterexample :
    lg2 (.val 0) = .negInf ∧ lg2 (.val (-1)) = .nan := by
  constructor
  · norm_num [lg2, np_log, np_mul_pos]
  · norm_num [lg2, np_log, np_mul_pos]

/-- C6 (amended): for positive `v`, `lg2 v = Real.log v * LOG_FACTOR`
with `LOG_FACTOR = 1.44269504`; `lg2 1 = 0` exactly (hence within
`1e-9`) and `lg2 (1/2)` is within `1e-6` of `-1`; for `v = 0` the
result is `-inf` and for `v < 0` it is `NaN` — no error is raised. -/
theorem lg2_spec :
    (∀ x : ℝ, 0 < x → lg2 (.val x) = .val (Real.log x * LOG_FACTOR)) ∧
    lg2 (.val 1) = .val 0 ∧
    (∃ y : ℝ, lg2 (.val (1 / 2)) = .val y ∧ |y - (-1)| ≤ 1 / 1000000) ∧
    lg2 (.val 0) = .negInf ∧
    (∀ x : ℝ, x < 0 → lg2 (.val x) = .nan) := by
  refine ⟨fun x hx => ?_, ?_, ⟨Real.log (1 / 2) * LOG_FACTOR, ?_, ?_⟩, ?_, fun x hx => ?_⟩
  · simp [lg2, np_log, np_mul_pos, if_pos hx]
  · norm_num [lg2, np_log, np_mul_pos]
  · norm_num [lg2, np_log, np_mul_pos]
  · have h1 := Real.log_two_gt_d9
    have h2 := Real.log_two_lt_d9
    have hhalf : Real.log (1 / 2) = -Real.log 2 := by
      rw [one_div, Real.log_inv]
    rw [hhalf, LOG_FACTOR, abs_le]
    norm_num
    constructor <;> nlinarith
  · norm_num [lg2, np_log, np_mul_pos]
  · have h0 : ¬(0 < x) := by linarith
    have hne : x ≠ 0 := ne_of_lt hx
    simp [lg2, np_log, np_mul_pos, h0, hne]

/-- Witness for C6 (amended) at `x = 2` and `x = -1`. -/
theorem lg2_spec_witness :
    lg2 (.val 2) = .val (Real.log 2 * LOG_FACTOR) ∧ lg2 (.val (-1)) = .nan :=
  ⟨lg2_spec.1 2 (by norm_num), lg2_spec.2.2.2.2 (-1) (by norm_num)⟩

/-- A pandas `DataFrame` as `list_data` observes it: a list of named
columns (`data[name]` looks a column up by name; a missing name raises
`KeyError`) and the length of the index (`len(data.index)`).  Column
entries are kept abstract in `α`.  The `isinstance(data, pd.DataFrame)`
guard at the top of `list_data` is subsumed by this static type. -/
structure DataFrame (α : Type) where
  columns : List (String × List α)
  nrows : Nat

/-- `len(data.columns)`. -/
def DataFrame.ncols {α : Type} (d : DataFrame α) : Nat :=
  d.columns.length

/-- The failures `list_data` can raise past its type guard: a failed
`assert` (Python `AssertionError`) or a missing column name (pandas
`KeyError`).  The spec names both `SchemaViolationError`. -/
inductive ListDataError where
  | schemaViolation (msg : String)
  | missingColumn (name : String)
  deriving DecidableEq, Repr

/-- `data[name].to_list()`: column lookup; `KeyError` on a missing
name. -/
def getColumn {α : Type} (d : DataFrame α) (name : String) :
    Except ListDataError (List α) :=
  match d.columns.lookup name with
  | some l => .ok l
  | none => .error (.missingColumn name)

/-- A Python `assert cond`, surfacing `AssertionError` as
`ListDataError.schemaViolation msg`. -/
def checkAssert (p : Prop) [Decidable p] (msg : String) :
    Except ListDataError Unit :=
  if p then .ok () else .error (.schemaViolation msg)

/-- `list_data(data, qvalue)` from utils.py lines 261-318, statement by
statement: the two column-count asserts, the ten named column
extractions, the q-value extraction when `qvalue` is set, the summary
list in source order, and the trailing length asserts (which cover
every extracted column except `references`). -/
def list_data {α : Type} (data : DataFrame α) (qvalue : Bool) :
    Except ListDataError (List (List α)) := do
  checkAssert (data.ncols ≤ 11) "len(data.columns) <= 11"
  checkAssert (10 ≤ data.ncols) "len(data.columns) >= 10"
  let seqnames ← getColumn data "sequence_name"
  let starts ← getColumn data "start"
  let stops ← getColumn data "stop"
  let scores ← getColumn data "score"
  let strands ← getColumn data "strand"
  let motifIDs ← getColumn data "motif_id"
  let motifNames ← getColumn data "motif_alt_id"
  let pvalues ← getColumn data "p-value"
  let sequences ← getColumn data "matched_sequence"
  let references ← getColumn data "reference"
  let qvaluesOpt ← if qvalue then do
      let qvalues ← getColumn data "q-value"
      pure (some qvalues)
    else pure none
  let summary := match qvaluesOpt with
    | some qvalues =>
        [motifIDs, motifNames, seqnames, starts, stops, strands, scores,
         pvalues, sequences, references, qvalues]
    | none =>
        [motifIDs, motifNames, seqnames, starts, stops, strands, scores,
         pvalues, sequences, references]
  let summary_len := motifIDs.length
  checkAssert (summary_len = data.nrows) "summary_len == len(data.index)"
  checkAssert (summary_len = motifNames.length) "summary_len == len(motifNames)"
  checkAssert (summary_len = seqnames.length) "summary_len == len(seqnames)"
  checkAssert (summary_len = starts.length) "summary_len == len(starts)"
  checkAssert (summary_len = stops.length) "summary_len == len(stops)"
  checkAssert (summary_len = strands.length) "summary_len == len(strands)"
  checkAssert (summary_len = scores.length) "summary_len == len(scores)"
  checkAssert (summary_len = pvalues.length) "summary_len == len(pvalues)"
  checkAssert (summary_len = sequences.length) "summary_len == len(sequences)"
  match qvaluesOpt with
  | some qvalues =>
      checkAssert (summary_len = qvalues.length) "summary_len == len(qvalues)"
  | none => pure ()
  return summary


def exampleTable11 : DataFrame String :=
  ⟨[("motif_id", ["MA0139.1"]), ("motif_alt_id", ["CTCF"]),
    ("sequence_name", ["chr1"]), ("start", ["100"]), ("stop", ["110"]),
    ("strand", ["+"]), ("score", ["9.5"]), ("p-value", ["0.001"]),
    ("matched_sequence", ["ACGTACGTAC"]), ("reference", ["ref"]),
    ("q-value", ["0.01"])], 1⟩

def refShortTable : DataFrame String :=
  ⟨[("motif_id", ["MA0139.1"]), ("motif_alt_id", ["CTCF"]),
    ("sequence_name", ["chr1"]), ("start", ["100"]), ("stop", ["110"]),
    ("strand", ["+"]), ("score", ["9.5"]), ("p-value", ["0.001"]),
    ("matched_sequence", ["ACGTACGTAC"]), ("reference", [])], 1⟩

def startShortTable : DataFrame String :=
  ⟨[("motif_id", ["MA0139.1"]), ("motif_alt_id", ["CTCF"]),
    ("sequence_name", ["chr1"]), ("start", []), ("stop", ["110"]),
    ("strand", ["+"]), ("score", ["9.5"]), ("p-value", ["0.001"]),
    ("matched_sequence", ["ACGTACGTAC"]), ("reference", ["ref"])], 1⟩

/-- Helper: on a well-formed table (column count in range, required
columns present, lengths matching the row count, q-value column present
when requested) `list_data` succeeds and returns the columns in source
order, with the q-value column appended last iff `qvalue` is set. -/
theorem list_data_ok_of_wellformed {α : Type} (d : DataFrame α) (q : Bool) (n : Nat)
    (motifIDs motifNames seqnames starts stops strands scores pvalues
      sequences references qvalues : List α)
    (hc1 : d.ncols ≤ 11) (hc2 : 10 ≤ d.ncols)
    (h1 : d.columns.lookup "sequence_name" = some seqnames)
    (h2 : d.columns.lookup "start" = some starts)
    (h3 : d.columns.lookup "stop" = some stops)
    (h4 : d.columns.lookup "score" = some scores)
    (h5 : d.columns.lookup "strand" = some strands)
    (h6 : d.columns.lookup "motif_id" = some motifIDs)
    (h7 : d.columns.lookup "motif_alt_id" = some motifNames)
    (h8 : d.columns.lookup "p-value" = some pvalues)
    (h9 : d.columns.lookup "matched_sequence" = some sequences)
    (h10 : d.columns.lookup "reference" = some references)
    (h11 : q = true → d.columns.lookup "q-value" = some qvalues)
    (hn : d.nrows = n)
    (l1 : motifIDs.length = n) (l2 : motifNames.length = n)
    (l3 : seqnames.length = n) (l4 : starts.length = n)
    (l5 : stops.length = n) (l6 : strands.length = n)
    (l7 : scores.length = n) (l8 : pvalues.length = n)
    (l9 : sequences.length = n)
    (l11 : q = true → qvalues.length = n) :
    list_data d q =
      .ok ([motifIDs, motifNames, seqnames, starts, stops, strands, scores,
            pvalues, sequences, references] ++ if q then [qvalues] else []) := by
  cases q
  · simp [list_data, getColumn, checkAssert, Bind.bind, Except.bind,
      Functor.map, Except.map, Pure.pure, Except.pure, h1, h2, h3, h4, h5, h6, h7, h8,
      h9, h10, hc1, hc2, hn, l1, l2, l3, l4, l5, l6, l7, l8, l9]
  · simp [list_data, getColumn, checkAssert, Bind.bind, Except.bind,
      Functor.map, Except.map, Pure.pure, Except.pure, h1, h2, h3, h4, h5, h6, h7, h8,
      h9, h10, h11 rfl, hc1, hc2, hn, l1, l2, l3, l4, l5, l6, l7, l8, l9,
      l11 rfl]

/-- C1: for every well-formed input table (column count in range, every
required column present, all column lengths equal to the row count, and
the q-value column present when `qvalue` is requested) and every flag
value, `list_data` returns the columns as ordered sequences in exactly
the fixed field order `motif_id, motif_alt_id, sequence_name, start,
stop, strand, score, p-value, matched_sequence, reference`, with the
q-value column appended last if and only if `qvalue` is true. -/
theorem list_data_field_order {α : Type} (d : DataFrame α) (q : Bool) (n : Nat)
    (motifIDs motifNames seqnames starts stops strands scores pvalues
      sequences references qvalues : List α)
    (hc1 : d.ncols ≤ 11) (hc2 : 10 ≤ d.ncols)
    (h1 : d.columns.lookup "sequence_name" = some seqnames)
    (h2 : d.columns.lookup "start" = some starts)
    (h3 : d.columns.lookup "stop" = some stops)
    (h4 : d.columns.lookup "score" = some scores)
    (h5 : d.columns.lookup "strand" = some strands)
    (h6 : d.columns.lookup "motif_id" = some motifIDs)
    (h7 : d.columns.lookup "motif_alt_id" = some motifNames)
    (h8 : d.columns.lookup "p-value" = some pvalues)
    (h9 : d.columns.lookup "matched_sequence" = some sequences)
    (h10 : d.columns.lookup "reference" = some references)
    (h11 : q = true → d.columns.lookup "q-value" = some qvalues)
    (hn : d.nrows = n)
    (l1 : motifIDs.length = n) (l2 : motifNames.length = n)
    (l3 : seqnames.length = n) (l4 : starts.length = n)
    (l5 : stops.length = n) (l6 : strands.length = n)
    (l7 : scores.length = n) (l8 : pvalues.length = n)
    (l9 : sequences.length = n)
    (l11 : q = true → qvalues.length = n) :
    list_data d q =
      .ok ([motifIDs, motifNames, seqnames, starts, stops, strands, scores,
            pvalues, sequences, references] ++ if q then [qvalues] else []) :=
  list_data_ok_of_wellformed d q n motifIDs motifNames seqnames starts stops
    strands scores pvalues sequences references qvalues hc1 hc2 h1 h2 h3 h4 h5
    h6 h7 h8 h9 h10 h11 hn l1 l2 l3 l4 l5 l6 l7 l8 l9 l11

/-- Witness for C1 at a concrete one-row 11-column table with
`qvalue = true`. -/
theorem list_data_field_order_witness :
    list_data exampleTable11 true =
      .ok ([[("MA0139.1" : String)], ["CTCF"], ["chr1"], ["100"], ["110"],
            ["+"], ["9.5"], ["0.001"], ["ACGTACGTAC"], ["ref"]] ++
           if true then [["0.01"]] else []) :=
  list_data_field_order exampleTable11 true 1
    ["MA0139.1"] ["CTCF"] ["chr1"] ["100"] ["110"] ["+"] ["9.5"] ["0.001"]
    ["ACGTACGTAC"] ["ref"] ["0.01"]
    (by decide) (by decide) rfl rfl rfl rfl rfl rfl rfl rfl rfl rfl
    (fun _ => rfl) rfl rfl rfl rfl rfl rfl rfl rfl rfl rfl (fun _ => rfl)

/-- C2 counterexample: an 11-column table (q-value column present)
passed with `qvalue = false` — a count the claim calls inconsistent
with the flag — succeeds instead of failing with a schema violation. -/
theorem list_data_count_flag_counterexample :
    exampleTable11.ncols = 11 ∧
    list_data exampleTable11 false =
      .ok [["MA0139.1"], ["CTCF"], ["chr1"], ["100"], ["110"], ["+"],
           ["9.5"], ["0.001"], ["ACGTACGTAC"], ["ref"]] :=
  ⟨rfl, rfl⟩

/-- C2 (amended): a column count outside {10, 11} fails with a
`SchemaViolationError` (a failed count assert); a count of 10 or 11
passes the count check regardless of the `qvalue` flag — consistency
between the count and the flag is not checked. -/
theorem list_data_column_count {α : Type} (d : DataFrame α) (q : Bool)
    (h : ¬(10 ≤ d.ncols ∧ d.ncols ≤ 11)) :
    list_data d q = .error (.schemaViolation "len(data.columns) <= 11") ∨
    list_data d q = .error (.schemaViolation "len(data.columns) >= 10") := by
  by_cases h1 : d.ncols ≤ 11
  · right
    have h2 : ¬(10 ≤ d.ncols) := fun hh => h ⟨hh, h1⟩
    simp [list_data, checkAssert, Bind.bind, Except.bind, h1, h2]
  · left
    simp [list_data, checkAssert, Bind.bind, Except.bind, h1]

/-- Witness for C2 (amended) at the empty zero-column table. -/
theorem list_data_column_count_witness :
    list_data (⟨[], 0⟩ : DataFrame String) false =
        .error (.schemaViolation "len(data.columns) <= 11") ∨
    list_data (⟨[], 0⟩ : DataFrame String) false =
        .error (.schemaViolation "len(data.columns) >= 10") :=
  list_data_column_count ⟨[], 0⟩ false (by decide)

/-- C3 counterexample: a one-row table whose `reference` column is
empty while every other column has one entry — a length mismatch — is
accepted, because no trailing assert checks the `references` list. -/
theorem list_data_reference_length_counterexample :
    refShortTable.nrows = 1 ∧
    refShortTable.columns.lookup "reference" = some [] ∧
    list_data refShortTable false =
      .ok [["MA0139.1"], ["CTCF"], ["chr1"], ["100"], ["110"], ["+"],
           ["9.5"], ["0.001"], ["ACGTACGTAC"], []] :=
  ⟨rfl, rfl, rfl⟩

/-- C3 (amended): a length mismatch in any length-checked column
(`motif_id` against the row count; `motif_alt_id`, `sequence_name`,
`start`, `stop`, `strand`, `score`, `p-value`, `matched_sequence`, and
the q-value column when requested, each against `motif_id`) makes
`list_data` fail with a `SchemaViolationError`; only the `reference`
column is exempt from the length check. -/
theorem list_data_length_mismatch {α : Type} (d : DataFrame α) (q : Bool)
    (motifIDs motifNames seqnames starts stops strands scores pvalues
      sequences references qvalues : List α)
    (hc1 : d.ncols ≤ 11) (hc2 : 10 ≤ d.ncols)
    (h1 : d.columns.lookup "sequence_name" = some seqnames)
    (h2 : d.columns.lookup "start" = some starts)
    (h3 : d.columns.lookup "stop" = some stops)
    (h4 : d.columns.lookup "score" = some scores)
    (h5 : d.columns.lookup "strand" = some strands)
    (h6 : d.columns.lookup "motif_id" = some motifIDs)
    (h7 : d.columns.lookup "motif_alt_id" = some motifNames)
    (h8 : d.columns.lookup "p-value" = some pvalues)
    (h9 : d.columns.lookup "matched_sequence" = some sequences)
    (h10 : d.columns.lookup "reference" = some references)
    (h11 : q = true → d.columns.lookup "q-value" = some qvalues)
    (hmis : ¬(motifIDs.length = d.nrows ∧
      motifIDs.length = motifNames.length ∧
      motifIDs.length = seqnames.length ∧
      motifIDs.length = starts.length ∧
      motifIDs.length = stops.length ∧
      motifIDs.length = strands.length ∧
      motifIDs.length = scores.length ∧
      motifIDs.length = pvalues.length ∧
      motifIDs.length = sequences.length ∧
      (q = true → motifIDs.length = qvalues.length))) :
    ∃ msg, list_data d q = .error (.schemaViolation msg) := by
  cases q
  · -- qvalue = false
    by_cases k1 : motifIDs.length = d.nrows
    · -- check 1 holds
      by_cases k2 : motifIDs.length = motifNames.length
      · -- check 2 holds
        by_cases k3 : motifIDs.length = seqnames.length
        · -- check 3 holds
          by_cases k4 : motifIDs.length = starts.length
          · -- check 4 holds
            by_cases k5 : motifIDs.length = stops.length
            · -- check 5 holds
              by_cases k6 : motifIDs.length = strands.length
              · -- check 6 holds
                by_cases k7 : motifIDs.length = scores.length
                · -- check 7 holds
                  by_cases k8 : motifIDs.length = pvalues.length
                  · -- check 8 holds
                    by_cases k9 : motifIDs.length = sequences.length
                    · -- check 9 holds
                      exact absurd ⟨k1, k2, k3, k4, k5, k6, k7, k8, k9,
                        fun h => nomatch h⟩ hmis
                    · -- check 9 fails
                      have e2 : motifNames.length = d.nrows := k2.symm.trans k1
                      have e3 : seqnames.length = d.nrows := k3.symm.trans k1
                      have e4 : starts.length = d.nrows := k4.symm.trans k1
                      have e5 : stops.length = d.nrows := k5.symm.trans k1
                      have e6 : strands.length = d.nrows := k6.symm.trans k1
                      have e7 : scores.length = d.nrows := k7.symm.trans k1
                      have e8 : pvalues.length = d.nrows := k8.symm.trans k1
                      have ebad : ¬(d.nrows = sequences.length) := fun h => k9 (k1.trans h)
                      exact ⟨"summary_len == len(sequences)",
                        by simp [list_data, getColumn, checkAssert, Bind.bind, Except.bind, Functor.map, Except.map, Pure.pure, Except.pure, h1, h2, h3, h4, h5, h6, h7, h8, h9, h10, hc1, hc2, k1, e2, e3, e4, e5, e6, e7, e8, ebad]⟩
                  · -- check 8 fails
                    have e2 : motifNames.length = d.nrows := k2.symm.trans k1
                    have e3 : seqnames.length = d.nrows := k3.symm.trans k1
                    have e4 : starts.length = d.nrows := k4.symm.trans k1
                    have e5 : stops.length = d.nrows := k5.symm.trans k1
                    have e6 : strands.length = d.nrows := k6.symm.trans k1
                    have e7 : scores.length = d.nrows := k7.symm.trans k1
                    have ebad : ¬(d.nrows = pvalues.length) := fun h => k8 (k1.trans h)
                    exact ⟨"summary_len == len(pvalues)",
                      by simp [list_data, getColumn, checkAssert, Bind.bind, Except.bind, Functor.map, Except.map, Pure.pure, Except.pure, h1, h2, h3, h4, h5, h6, h7, h8, h9, h10, hc1, hc2, k1, e2, e3, e4, e5, e6, e7, ebad]⟩
                · -- check 7 fails
                  have e2 : motifNames.length = d.nrows := k2.symm.trans k1
                  have e3 : seqnames.length = d.nrows := k3.symm.trans k1
                  have e4 : starts.length = d.nrows := k4.symm.trans k1
                  have e5 : stops.length = d.nrows := k5.symm.trans k1
                  have e6 : strands.length = d.nrows := k6.symm.trans k1
                  have ebad : ¬(d.nrows = scores.length) := fun h => k7 (k1.trans h)
                  exact ⟨"summary_len == len(scores)",
                    by simp [list_data, getColumn, checkAssert, Bind.bind, Except.bind, Functor.map, Except.map, Pure.pure, Except.pure, h1, h2, h3, h4, h5, h6, h7, h8, h9, h10, hc1, hc2, k1, e2, e3, e4, e5, e6, ebad]⟩
              · -- check 6 fails
                have e2 : motifNames.length = d.nrows := k2.symm.trans k1
                have e3 : seqnames.length = d.nrows := k3.symm.trans k1
                have e4 : starts.length = d.nrows := k4.symm.trans k1
                have e5 : stops.length = d.nrows := k5.symm.trans k1
                have ebad : ¬(d.nrows = strands.length) := fun h => k6 (k1.trans h)
                exact ⟨"summary_len == len(strands)",
                  by simp [list_data, getColumn, checkAssert, Bind.bind, Except.bind, Functor.map, Except.map, Pure.pure, Except.pure, h1, h2, h3, h4, h5, h6, h7, h8, h9, h10, hc1, hc2, k1, e2, e3, e4, e5, ebad]⟩
            · -- check 5 fails
              have e2 : motifNames.length = d.nrows := k2.symm.trans k1
              have e3 : seqnames.length = d.nrows := k3.symm.trans k1
              have e4 : starts.length = d.nrows := k4.symm.trans k1
              have ebad : ¬(d.nrows = stops.length) := fun h => k5 (k1.trans h)
              exact ⟨"summary_len == len(stops)",
                by simp [list_data, getColumn, checkAssert, Bind.bind, Except.bind, Functor.map, Except.map, Pure.pure, Except.pure, h1, h2, h3, h4, h5, h6, h7, h8, h9, h10, hc1, hc2, k1, e2, e3, e4, ebad]⟩
          · -- check 4 fails
            have e2 : motifNames.length = d.nrows := k2.symm.trans k1
            have e3 : seqnames.length = d.nrows := k3.symm.trans k1
            have ebad : ¬(d.nrows = starts.length) := fun h => k4 (k1.trans h)
            exact ⟨"summary_len == len(starts)",
              by simp [list_data, getColumn, checkAssert, Bind.bind, Except.bind, Functor.map, Except.map, Pure.pure, Except.pure, h1, h2, h3, h4, h5, h6, h7, h8, h9, h10, hc1, hc2, k1, e2, e3, ebad]⟩
        · -- check 3 fails
          have e2 : motifNames.length = d.nrows := k2.symm.trans k1
          have ebad : ¬(d.nrows = seqnames.length) := fun h => k3 (k1.trans h)
          exact ⟨"summary_len == len(seqnames)",
            by simp [list_data, getColumn, checkAssert, Bind.bind, Except.bind, Functor.map, Except.map, Pure.pure, Except.pure, h1, h2, h3, h4, h5, h6, h7, h8, h9, h10, hc1, hc2, k1, e2, ebad]⟩
      · -- check 2 fails
        have ebad : ¬(d.nrows = motifNames.length) := fun h => k2 (k1.trans h)
        exact ⟨"summary_len == len(motifNames)",
          by simp [list_data, getColumn, checkAssert, Bind.bind, Except.bind, Functor.map, Except.map, Pure.pure, Except.pure, h1, h2, h3, h4, h5, h6, h7, h8, h9, h10, hc1, hc2, k1, ebad]⟩
    · -- check 1 fails
      exact ⟨"summary_len == len(data.index)",
        by simp [list_data, getColumn, checkAssert, Bind.bind, Except.bind, Functor.map, Except.map, Pure.pure, Except.pure, h1, h2, h3, h4, h5, h6, h7, h8, h9, h10, hc1, hc2, k1]⟩
  · -- qvalue = true
    by_cases k1 : motifIDs.length = d.nrows
    · -- check 1 holds
      by_cases k2 : motifIDs.length = motifNames.length
      · -- check 2 holds
        by_cases k3 : motifIDs.length = seqnames.length
        · -- check 3 holds
          by_cases k4 : motifIDs.length = starts.length
          · -- check 4 holds
            by_cases k5 : motifIDs.length = stops.length
            · -- check 5 holds
              by_cases k6 : motifIDs.length = strands.length
              · -- check 6 holds
                by_cases k7 : motifIDs.length = scores.length
                · -- check 7 holds
                  by_cases k8 : motifIDs.length = pvalues.length
                  · -- check 8 holds
                    by_cases k9 : motifIDs.length = sequences.length
                    · -- check 9 holds
                      by_cases k10 : motifIDs.length = qvalues.length
                      · -- check 10 holds
                        exact absurd ⟨k1, k2, k3, k4, k5, k6, k7, k8, k9,
                          fun _ => k10⟩ hmis
                      · -- check 10 fails
                        have e2 : motifNames.length = d.nrows := k2.symm.trans k1
                        have e3 : seqnames.length = d.nrows := k3.symm.trans k1
                        have e4 : starts.length = d.nrows := k4.symm.trans k1
                        have e5 : stops.length = d.nrows := k5.symm.trans k1
                        have e6 : strands.length = d.nrows := k6.symm.trans k1
                        have e7 : scores.length = d.nrows := k7.symm.trans k1
                        have e8 : pvalues.length = d.nrows := k8.symm.trans k1
                        have e9 : sequences.length = d.nrows := k9.symm.trans k1
                        have ebad : ¬(d.nrows = qvalues.length) := fun h => k10 (k1.trans h)
                        exact ⟨"summary_len == len(qvalues)",
                          by simp [list_data, getColumn, checkAssert, Bind.bind, Except.bind, Functor.map, Except.map, Pure.pure, Except.pure, h1, h2, h3, h4, h5, h6, h7, h8, h9, h10, h11 rfl, hc1, hc2, k1, e2, e3, e4, e5, e6, e7, e8, e9, ebad]⟩
                    · -- check 9 fails
                      have e2 : motifNames.length = d.nrows := k2.symm.trans k1
                      have e3 : seqnames.length = d.nrows := k3.symm.trans k1
                      have e4 : starts.length = d.nrows := k4.symm.trans k1
                      have e5 : stops.length = d.nrows := k5.symm.trans k1
                      have e6 : strands.length = d.nrows := k6.symm.trans k1
                      have e7 : scores.length = d.nrows := k7.symm.trans k1
                      have e8 : pvalues.length = d.nrows := k8.symm.trans k1
                      have ebad : ¬(d.nrows = sequences.length) := fun h => k9 (k1.trans h)
                      exact ⟨"summary_len == len(sequences)",
                        by simp [list_data, getColumn, checkAssert, Bind.bind, Except.bind, Functor.map, Except.map, Pure.pure, Except.pure, h1, h2, h3, h4, h5, h6, h7, h8, h9, h10, h11 rfl, hc1, hc2, k1, e2, e3, e4, e5, e6, e7, e8, ebad]⟩
                  · -- check 8 fails
                    have e2 : motifNames.length = d.nrows := k2.symm.trans k1
                    have e3 : seqnames.length = d.nrows := k3.symm.trans k1
                    have e4 : starts.length = d.nrows := k4.symm.trans k1
                    have e5 : stops.length = d.nrows := k5.symm.trans k1
                    have e6 : strands.length = d.nrows := k6.symm.trans k1
                    have e7 : scores.length = d.nrows := k7.symm.trans k1
                    have ebad : ¬(d.nrows = pvalues.length) := fun h => k8 (k1.trans h)
                    exact ⟨"summary_len == len(pvalues)",
                      by simp [list_data, getColumn, checkAssert, Bind.bind, Except.bind, Functor.map, Except.map, Pure.pure, Except.pure, h1, h2, h3, h4, h5, h6, h7, h8, h9, h10, h11 rfl, hc1, hc2, k1, e2, e3, e4, e5, e6, e7, ebad]⟩
                · -- check 7 fails
                  have e2 : motifNames.length = d.nrows := k2.symm.trans k1
                  have e3 : seqnames.length = d.nrows := k3.symm.trans k1
                  have e4 : starts.length = d.nrows := k4.symm.trans k1
                  have e5 : stops.length = d.nrows := k5.symm.trans k1
                  have e6 : strands.length = d.nrows := k6.symm.trans k1
                  have ebad : ¬(d.nrows = scores.length) := fun h => k7 (k1.trans h)
                  exact ⟨"summary_len == len(scores)",
                    by simp [list_data, getColumn, checkAssert, Bind.bind, Except.bind, Functor.map, Except.map, Pure.pure, Except.pure, h1, h2, h3, h4, h5, h6, h7, h8, h9, h10, h11 rfl, hc1, hc2, k1, e2, e3, e4, e5, e6, ebad]⟩
              · -- check 6 fails
                have e2 : motifNames.length = d.nrows := k2.symm.trans k1
                have e3 : seqnames.length = d.nrows := k3.symm.trans k1
                have e4 : starts.length = d.nrows := k4.symm.trans k1
                have e5 : stops.length = d.nrows := k5.symm.trans k1
                have ebad : ¬(d.nrows = strands.length) := fun h => k6 (k1.trans h)
                exact ⟨"summary_len == len(strands)",
                  by simp [list_data, getColumn, checkAssert, Bind.bind, Except.bind, Functor.map, Except.map, Pure.pure, Except.pure, h1, h2, h3, h4, h5, h6, h7, h8, h9, h10, h11 rfl, hc1, hc2, k1, e2, e3, e4, e5, ebad]⟩
            · -- check 5 fails
              have e2 : motifNames.length = d.nrows := k2.symm.trans k1
              have e3 : seqnames.length = d.nrows := k3.symm.trans k1
              have e4 : starts.length = d.nrows := k4.symm.trans k1
              have ebad : ¬(d.nrows = stops.length) := fun h => k5 (k1.trans h)
              exact ⟨"summary_len == len(stops)",
                by simp [list_data, getColumn, checkAssert, Bind.bind, Except.bind, Functor.map, Except.map, Pure.pure, Except.pure, h1, h2, h3, h4, h5, h6, h7, h8, h9, h10, h11 rfl, hc1, hc2, k1, e2, e3, e4, ebad]⟩
          · -- check 4 fails
            have e2 : motifNames.length = d.nrows := k2.symm.trans k1
            have e3 : seqnames.length = d.nrows := k3.symm.trans k1
            have ebad : ¬(d.nrows = starts.length) := fun h => k4 (k1.trans h)
            exact ⟨"summary_len == len(starts)",
              by simp [list_data, getColumn, checkAssert, Bind.bind, Except.bind, Functor.map, Except.map, Pure.pure, Except.pure, h1, h2, h3, h4, h5, h6, h7, h8, h9, h10, h11 rfl, hc1, hc2, k1, e2, e3, ebad]⟩
        · -- check 3 fails
          have e2 : motifNames.length = d.nrows := k2.symm.trans k1
          have ebad : ¬(d.nrows = seqnames.length) := fun h => k3 (k1.trans h)
          exact ⟨"summary_len == len(seqnames)",
            by simp [list_data, getColumn, checkAssert, Bind.bind, Except.bind, Functor.map, Except.map, Pure.pure, Except.pure, h1, h2, h3, h4, h5, h6, h7, h8, h9, h10, h11 rfl, hc1, hc2, k1, e2, ebad]⟩
      · -- check 2 fails
        have ebad : ¬(d.nrows = motifNames.length) := fun h => k2 (k1.trans h)
        exact ⟨"summary_len == len(motifNames)",
          by simp [list_data, getColumn, checkAssert, Bind.bind, Except.bind, Functor.map, Except.map, Pure.pure, Except.pure, h1, h2, h3, h4, h5, h6, h7, h8, h9, h10, h11 rfl, hc1, hc2, k1, ebad]⟩
    · -- check 1 fails
      exact ⟨"summary_len == len(data.index)",
        by simp [list_data, getColumn, checkAssert, Bind.bind, Except.bind, Functor.map, Except.map, Pure.pure, Except.pure, h1, h2, h3, h4, h5, h6, h7, h8, h9, h10, h11 rfl, hc1, hc2, k1]⟩

/-- Witness for C3 (amended) at a one-row table whose `start` column is
empty. -/
theorem list_data_length_mismatch_witness :
    ∃ msg, list_data startShortTable false = .error (.schemaViolation msg) :=
  list_data_length_mismatch startShortTable false
    ["MA0139.1"] ["CTCF"] ["chr1"] [] ["110"] ["+"] ["9.5"] ["0.001"]
    ["ACGTACGTAC"] ["ref"] []
    (by decide) (by decide) rfl rfl rfl rfl rfl rfl rfl rfl rfl rfl
    (fun h => nomatch h) (by decide)

/-- C4: with `qvalue` requested, a table lacking a q-value column (the
ten required columns present and the count in range) makes `list_data`
fail on the missing column — the `KeyError` that the spec names
`SchemaViolationError` — while a table carrying a q-value column of
matching length succeeds. -/
theorem list_data_qvalue_requested {α : Type} :
    (∀ (d : DataFrame α)
       (motifIDs motifNames seqnames starts stops strands scores pvalues
         sequences references : List α),
       d.ncols ≤ 11 → 10 ≤ d.ncols →
       d.columns.lookup "sequence_name" = some seqnames →
       d.columns.lookup "start" = some starts →
       d.columns.lookup "stop" = some stops →
       d.columns.lookup "score" = some scores →
       d.columns.lookup "strand" = some strands →
       d.columns.lookup "motif_id" = some motifIDs →
       d.columns.lookup "motif_alt_id" = some motifNames →
       d.columns.lookup "p-value" = some pvalues →
       d.columns.lookup "matched_sequence" = some sequences →
       d.columns.lookup "reference" = some references →
       d.columns.lookup "q-value" = none →
       list_data d true = .error (.missingColumn "q-value")) ∧
    (∀ (d : DataFrame α) (n : Nat)
       (motifIDs motifNames seqnames starts stops strands scores pvalues
         sequences references qvalues : List α),
       d.ncols ≤ 11 → 10 ≤ d.ncols →
       d.columns.lookup "sequence_name" = some seqnames →
       d.columns.lookup "start" = some starts →
       d.columns.lookup "stop" = some stops →
       d.columns.lookup "score" = some scores →
       d.columns.lookup "strand" = some strands →
       d.columns.lookup "motif_id" = some motifIDs →
       d.columns.lookup "motif_alt_id" = some motifNames →
       d.columns.lookup "p-value" = some pvalues →
       d.columns.lookup "matched_sequence" = some sequences →
       d.columns.lookup "reference" = some references →
       d.columns.lookup "q-value" = some qvalues →
       d.nrows = n →
       motifIDs.length = n → motifNames.length = n → seqnames.length = n →
       starts.length = n → stops.length = n → strands.length = n →
       scores.length = n → pvalues.length = n → sequences.length = n →
       qvalues.length = n →
       list_data d true =
         .ok [motifIDs, motifNames, seqnames, starts, stops, strands, scores,
              pvalues, sequences, references, qvalues]) := by
  constructor
  · intro d motifIDs motifNames seqnames starts stops strands scores pvalues
      sequences references hc1 hc2 h1 h2 h3 h4 h5 h6 h7 h8 h9 h10 hq
    simp [list_data, getColumn, checkAssert, Bind.bind, Except.bind,
      Functor.map, Except.map, Pure.pure, Except.pure, h1, h2, h3, h4, h5,
      h6, h7, h8, h9, h10, hq, hc1, hc2]
  · intro d n motifIDs motifNames seqnames starts stops strands scores
      pvalues sequences references qvalues hc1 hc2 h1 h2 h3 h4 h5 h6 h7 h8
      h9 h10 hq hn l1 l2 l3 l4 l5 l6 l7 l8 l9 l11
    have h := list_data_ok_of_wellformed d true n motifIDs motifNames
      seqnames starts stops strands scores pvalues sequences references
      qvalues hc1 hc2 h1 h2 h3 h4 h5 h6 h7 h8 h9 h10 (fun _ => hq) hn
      l1 l2 l3 l4 l5 l6 l7 l8 l9 (fun _ => l11)
    simpa using h

/-- Witness for C4: failure at a 10-column table without a q-value
column, success at an 11-column table with one. -/
theorem list_data_qvalue_requested_witness :
    list_data refShortTable true = .error (.missingColumn "q-value") ∧
    list_data exampleTable11 true =
      .ok [[("MA0139.1" : String)], ["CTCF"], ["chr1"], ["100"], ["110"],
           ["+"], ["9.5"], ["0.001"], ["ACGTACGTAC"], ["ref"], ["0.01"]] :=
  ⟨list_data_qvalue_requested.1 refShortTable
     ["MA0139.1"] ["CTCF"] ["chr1"] ["100"] ["110"] ["+"] ["9.5"] ["0.001"]
     ["ACGTACGTAC"] []
     (by decide) (by decide) rfl rfl rfl rfl rfl rfl rfl rfl rfl rfl rfl,
   list_data_qvalue_requested.2 exampleTable11 1
     ["MA0139.1"] ["CTCF"] ["chr1"] ["100"] ["110"] ["+"] ["9.5"] ["0.001"]
     ["ACGTACGTAC"] ["ref"] ["0.01"]
     (by decide) (by decide) rfl rfl rfl rfl rfl rfl rfl rfl rfl rfl rfl rfl
     rfl rfl rfl rfl rfl rfl rfl rfl rfl rfl⟩

/-- C10: an 11-column table that includes a q-value column, passed with
`qvalue = false`, is accepted without any error and yields only the ten
non-q-value columns: the q-value column is silently dropped and the
count/flag inconsistency goes unreported. -/
theorem list_data_silently_drops_qvalue {α : Type} (d : DataFrame α) (n : Nat)
    (motifIDs motifNames seqnames starts stops strands scores pvalues
      sequences references qvalues : List α)
    (hc : d.ncols = 11)
    (h1 : d.columns.lookup "sequence_name" = some seqnames)
    (h2 : d.columns.lookup "start" = some starts)
    (h3 : d.columns.lookup "stop" = some stops)
    (h4 : d.columns.lookup "score" = some scores)
    (h5 : d.columns.lookup "strand" = some strands)
    (h6 : d.columns.lookup "motif_id" = some motifIDs)
    (h7 : d.columns.lookup "motif_alt_id" = some motifNames)
    (h8 : d.columns.lookup "p-value" = some pvalues)
    (h9 : d.columns.lookup "matched_sequence" = some sequences)
    (h10 : d.columns.lookup "reference" = some references)
    (hq : d.columns.lookup "q-value" = some qvalues)
    (hn : d.nrows = n)
    (l1 : motifIDs.length = n) (l2 : motifNames.length = n)
    (l3 : seqnames.length = n) (l4 : starts.length = n)
    (l5 : stops.length = n) (l6 : strands.length = n)
    (l7 : scores.length = n) (l8 : pvalues.length = n)
    (l9 : sequences.length = n) :
    list_data d false =
      .ok [motifIDs, motifNames, seqnames, starts, stops, strands, scores,
           pvalues, sequences, references] := by
  have h := list_data_ok_of_wellformed d false n motifIDs motifNames
    seqnames starts stops strands scores pvalues sequences references
    qvalues (le_of_eq hc) (by omega) h1 h2 h3 h4 h5 h6 h7 h8 h9 h10
    (fun _ => hq) hn l1 l2 l3 l4 l5 l6 l7 l8 l9 (fun h => nomatch h)
  simpa using h

/-- Witness for C10 at the concrete one-row 11-column table. -/
theorem list_data_silently_drops_qvalue_witness :
    list_data exampleTable11 false =
      .ok [[("MA0139.1" : String)], ["CTCF"], ["chr1"], ["100"], ["110"],
           ["+"], ["9.5"], ["0.001"], ["ACGTACGTAC"], ["ref"]] :=
  list_data_silently_drops_qvalue exampleTable11 1
    ["MA0139.1"] ["CTCF"] ["chr1"] ["100"] ["110"] ["+"] ["9.5"] ["0.001"]
    ["ACGTACGTAC"] ["ref"] ["0.01"]
    rfl rfl rfl rfl rfl rfl rfl rfl rfl rfl rfl rfl rfl rfl rfl rfl rfl
    rfl rfl rfl rfl rfl

end Grafimo
